import Mathlib

/-!
Verification of the name-watching state machine (`gio/gdbusnamewatching.c`)
and the application registration/command-line layer
(`gio/gapplicationimpl-dbus.c`).

The C code is shallowly embedded: each C function that the properties
depend on becomes a Lean function over explicit state; asynchronous
completion callbacks become events consumed by a step function; the
per-watcher callback deliveries (the calls handed to `do_call`, which
dispatches either inline or through a FIFO idle source on the watcher's
captured main context, preserving order) are collected into lists.
-/

namespace GDBus

/-- `PreviousCall` enum, gdbusnamewatching.c lines 52-57. -/
inductive PreviousCall
  | none
  | appeared
  | vanished
deriving DecidableEq, Repr

/-- `CallType` enum, gdbusnamewatching.c lines 117-121: the two kinds of
watcher callback that can be delivered. -/
inductive CallType
  | nameAppeared
  | nameVanished
deriving DecidableEq, Repr

/-- The `Client` struct, gdbusnamewatching.c lines 59-80.  Pointer-valued
fields are modelled by what the control flow reads of them: the two
handler pointers by whether they are non-NULL, `connection` by whether it
is non-NULL (`connected`), `flags` by its single recognized bit
(`G_BUS_NAME_WATCHER_FLAGS_AUTO_START`).  Reference counting, the main
context and the subscription ids do not influence which callbacks are
delivered and are omitted. -/
structure Client where
  id : Nat
  name : String
  auto_start : Bool
  name_owner : Option String
  has_appeared_handler : Bool
  has_vanished_handler : Bool
  connected : Bool
  previous_call : PreviousCall
  cancelled : Bool
  initialized : Bool
deriving DecidableEq, Repr

/-- `call_appeared_handler`, gdbusnamewatching.c lines 218-229: if
`previous_call` is not already APPEARED it becomes APPEARED, and the
appeared callback is dispatched when the client is not cancelled and the
handler is non-NULL.  (The C updates `previous_call` first and then
tests `cancelled`/the handler; the branches are flattened here, which is
equivalent because the inner test does not read `previous_call`.) -/
def call_appeared_handler (client : Client) : Client × List CallType :=
  if client.previous_call = PreviousCall.appeared then
    (client, [])
  else if client.cancelled = false ∧ client.has_appeared_handler = true then
    ({ client with previous_call := PreviousCall.appeared }, [CallType.nameAppeared])
  else
    ({ client with previous_call := PreviousCall.appeared }, [])

/-- `call_vanished_handler`, gdbusnamewatching.c lines 231-243: if
`previous_call` is not already VANISHED it becomes VANISHED, and the
vanished callback is dispatched when
`(!client->cancelled || ignore_cancelled) && handler != NULL`. -/
def call_vanished_handler (client : Client) (ignore_cancelled : Bool) :
    Client × List CallType :=
  if client.previous_call = PreviousCall.vanished then
    (client, [])
  else if (client.cancelled = false ∨ ignore_cancelled = true) ∧
      client.has_vanished_handler = true then
    ({ client with previous_call := PreviousCall.vanished }, [CallType.nameVanished])
  else
    ({ client with previous_call := PreviousCall.vanished }, [])

/-- `on_connection_disconnected`, gdbusnamewatching.c lines 247-265:
unsubscribe, clear the connection, then `call_vanished_handler (client,
FALSE)` — note the literal FALSE for `ignore_cancelled` in the source. -/
def on_connection_disconnected (client : Client) : Client × List CallType :=
  call_vanished_handler { client with connected := false } false

/-- `on_name_owner_changed`, gdbusnamewatching.c lines 269-318: ignored
until `initialized`; ignored unless sender, path and interface are the
bus daemon's and the signal is about the watched name; then a non-empty
`old_owner` with a known `name_owner` clears the owner and calls the
vanished path, and a non-empty `new_owner` records the owner and calls
the appeared path. -/
def on_name_owner_changed (client : Client)
    (sender_name object_path interface_name : String)
    (name old_owner new_owner : String) : Client × List CallType :=
  if client.initialized = false then (client, [])
  else if object_path ≠ "/org/freedesktop/DBus" ∨
      interface_name ≠ "org.freedesktop.DBus" ∨
      sender_name ≠ "org.freedesktop.DBus" then (client, [])
  else if name ≠ client.name then (client, [])
  else
    let part1 :=
      if old_owner ≠ "" ∧ client.name_owner ≠ Option.none then
        call_vanished_handler { client with name_owner := Option.none } false
      else (client, [])
    let part2 :=
      if new_owner ≠ "" then
        call_appeared_handler { part1.1 with name_owner := some new_owner }
      else (part1.1, [])
    (part2.1, part1.2 ++ part2.2)

/-- `get_name_owner_cb`, gdbusnamewatching.c lines 322-358: a successful
`GetNameOwner` reply (`some owner`) records the owner and calls the
appeared path; a failed call (`Option.none`) calls the vanished path with
FALSE; in both cases `initialized` then becomes true. -/
def get_name_owner_cb (client : Client) (result : Option String) :
    Client × List CallType :=
  let part :=
    match result with
    | some owner => call_appeared_handler { client with name_owner := some owner }
    | Option.none => call_vanished_handler client false
  ({ part.1 with initialized := true }, part.2)

/-- `start_service_by_name_cb`, gdbusnamewatching.c lines 380-430: reply
code 1 or 2 proceeds to `invoke_get_name_owner` (whose completion is a
separate event); any other code warns, calls the vanished path with FALSE
and sets `initialized`; an error reply also proceeds to the owner
query. -/
def start_service_by_name_cb (client : Client) (result : Option Nat) :
    Client × List CallType :=
  match result with
  | some code =>
      if code = 1 then (client, [])
      else if code = 2 then (client, [])
      else
        let part := call_vanished_handler client false
        ({ part.1 with initialized := true }, part.2)
  | Option.none => (client, [])

/-- `connection_get_cb`, gdbusnamewatching.c lines 476-494 together with
`has_connection`, lines 434-473: a failed bus acquisition calls the
vanished path with FALSE; a successful one stores the connection,
installs the closed handler and the `NameOwnerChanged` subscription and
issues the (asynchronous) `StartServiceByName` or `GetNameOwner` call,
whose completions are separate events. -/
def connection_get_cb (client : Client) (ok : Bool) : Client × List CallType :=
  if ok then ({ client with connected := true }, [])
  else call_vanished_handler client false

/-- The asynchronous completions and external inputs that drive one
watcher: bus acquisition (`connection_get_cb`), `StartServiceByName`
replies (`start_service_by_name_cb`), `GetNameOwner` replies
(`get_name_owner_cb`), `NameOwnerChanged` signals
(`on_name_owner_changed`), connection closure
(`on_connection_disconnected`) and cancellation by `g_bus_unwatch_name`
(which sets `cancelled`, lines 677). -/
inductive BusEvent
  | connectionGet (ok : Bool)
  | startServiceReply (result : Option Nat)
  | getNameOwnerReply (owner : Option String)
  | nameOwnerChanged (sender_name object_path interface_name : String)
      (name old_owner new_owner : String)
  | connectionClosed
  | unwatch
deriving DecidableEq, Repr

/-- One transition of the watcher state machine: dispatch a single event
to the corresponding C callback. -/
def step (client : Client) (ev : BusEvent) : Client × List CallType :=
  match ev with
  | BusEvent.connectionGet ok => connection_get_cb client ok
  | BusEvent.startServiceReply result => start_service_by_name_cb client result
  | BusEvent.getNameOwnerReply owner => get_name_owner_cb client owner
  | BusEvent.nameOwnerChanged s p i nm o n =>
      on_name_owner_changed client s p i nm o n
  | BusEvent.connectionClosed => on_connection_disconnected client
  | BusEvent.unwatch => ({ client with cancelled := true }, [])

/-- Run a sequence of events, concatenating the delivered callbacks in
order (delivery order equals scheduling order: `do_call` either runs the
handler inline or attaches a `G_PRIORITY_HIGH` idle source to the
watcher's captured context, and idle sources fire in FIFO order). -/
def run : Client → List BusEvent → Client × List CallType
  | c, [] => (c, [])
  | c, e :: rest =>
      ((run (step c e).1 rest).1, (step c e).2 ++ (run (step c e).1 rest).2)

/-- The watcher state built by `g_bus_watch_name` (gdbusnamewatching.c
lines 558-569): fresh id, watched name, flags, both handlers captured,
no connection, `previous_call = NONE`, not cancelled, not
initialized. -/
def initial_client (i : Nat) (nm : String) (auto hasA hasV : Bool) : Client :=
  { id := i
    name := nm
    auto_start := auto
    name_owner := Option.none
    has_appeared_handler := hasA
    has_vanished_handler := hasV
    connected := false
    previous_call := PreviousCall.none
    cancelled := false
    initialized := false }

/-- The global watcher registry (gdbusnamewatching.c lines 82-83):
`next_global_id` starts at 1 and `map_id_to_client` is the
`GHashTable` from ids to clients, modelled as a function to
`Option Client` (`Option.none` covers both an absent key and the
not-yet-created table). -/
structure Registry where
  next_global_id : Nat
  map_id_to_client : Nat → Option Client

/-- The registry before any watcher is created. -/
def registry0 : Registry :=
  { next_global_id := 1, map_id_to_client := fun _ => Option.none }

/-- `g_bus_watch_name`, gdbusnamewatching.c lines 543-587.
`g_dbus_is_name` lives in gdbusutils.c and is abstracted as a predicate
parameter: if the name is not a valid bus name the function returns 0
without touching the registry (`g_return_val_if_fail`, line 554).
Otherwise a fresh client is created under `next_global_id++`, inserted
into the table, and the asynchronous `g_bus_get` is issued (its
completion is the `BusEvent.connectionGet` event).  Returns the updated
registry and the watcher id. -/
def g_bus_watch_name (g_dbus_is_name : String → Bool) (st : Registry)
    (nm : String) (auto hasA hasV : Bool) : Registry × Nat :=
  if g_dbus_is_name nm = false then (st, 0)
  else
    let client := initial_client st.next_global_id nm auto hasA hasV
    ({ next_global_id := st.next_global_id + 1
       map_id_to_client := fun j =>
         if j = client.id then some client else st.map_id_to_client j },
     client.id)

/-- `g_bus_watch_name_on_connection`, gdbusnamewatching.c lines 607-649:
like `g_bus_watch_name` but also guarded by
`G_IS_DBUS_CONNECTION (connection)` (`connection_valid` here), and the
provided connection is adopted at once (`connected := true`,
line 643) before `has_connection` runs. -/
def g_bus_watch_name_on_connection (g_dbus_is_name : String → Bool)
    (connection_valid : Bool) (st : Registry)
    (nm : String) (auto hasA hasV : Bool) : Registry × Nat :=
  if connection_valid = false then (st, 0)
  else if g_dbus_is_name nm = false then (st, 0)
  else
    let client :=
      { initial_client st.next_global_id nm auto hasA hasV with connected := true }
    ({ next_global_id := st.next_global_id + 1
       map_id_to_client := fun j =>
         if j = client.id then some client else st.map_id_to_client j },
     client.id)

/-- What `g_bus_unwatch_name` did: warned about an invalid id, or removed
(and cancelled) the given client. -/
inductive UnwatchOutcome
  | warned
  | removed (client : Client)
deriving DecidableEq, Repr

/-- `g_bus_unwatch_name`, gdbusnamewatching.c lines 659-688: id 0, a
missing table or a failed lookup produce a warning and leave the registry
untouched; otherwise the client's `cancelled` flag is set and the entry
is removed under the lock (the final `client_unref` drops the caller's
reference; callbacks only observe the `cancelled` flag). -/
def g_bus_unwatch_name (st : Registry) (watcher_id : Nat) :
    Registry × UnwatchOutcome :=
  if watcher_id = 0 then (st, UnwatchOutcome.warned)
  else
    match st.map_id_to_client watcher_id with
    | Option.none => (st, UnwatchOutcome.warned)
    | some client =>
        ({ st with
           map_id_to_client := fun j =>
             if j = watcher_id then Option.none else st.map_id_to_client j },
         UnwatchOutcome.removed { client with cancelled := true })

/-- A delivered-callback sequence is strictly alternating: no two adjacent
elements are of the same kind. -/
def alternates : List CallType → Bool
  | [] => true
  | [_] => true
  | a :: b :: rest => (a != b) && alternates (b :: rest)

/-- The last element of a delivered-callback sequence, if any. -/
def last_delivered : List CallType → Option CallType
  | [] => Option.none
  | [a] => some a
  | _ :: b :: rest => last_delivered (b :: rest)

/-- The callback kind recorded by a `PreviousCall` value. -/
def prev_as_call : PreviousCall → Option CallType
  | PreviousCall.none => Option.none
  | PreviousCall.appeared => some CallType.nameAppeared
  | PreviousCall.vanished => some CallType.nameVanished

/-- Invariant tying a watcher's delivered-callback history `ds` to its
`cancelled` and `previous_call` fields: the history alternates, and as
long as the watcher is not cancelled the last delivered callback is
exactly the one recorded in `previous_call`. -/
def DeliveryInv (cancelled : Bool) (prev : PreviousCall) (ds : List CallType) : Prop :=
  alternates ds = true ∧
    (cancelled = false → last_delivered ds = prev_as_call prev)

/-- The complete startup executions of a watcher whose `AUTO_START` flag
is the first argument, as driven by `connection_get_cb`,
`has_connection`, `start_service_by_name_cb` and `invoke_get_name_owner`
(gdbusnamewatching.c lines 322-494): either bus acquisition fails, or it
succeeds and — after the optional `StartServiceByName` exchange — the
initial `GetNameOwner` reply arrives; an unexpected `StartServiceByName`
reply code ends the startup by itself. -/
inductive CompleteStartup : Bool → List BusEvent → Prop
  | busFail (auto : Bool) :
      CompleteStartup auto [BusEvent.connectionGet false]
  | noAuto (owner : Option String) :
      CompleteStartup false
        [BusEvent.connectionGet true, BusEvent.getNameOwnerReply owner]
  | autoStarted (code : Nat) (owner : Option String) (h : code = 1 ∨ code = 2) :
      CompleteStartup true
        [BusEvent.connectionGet true, BusEvent.startServiceReply (some code),
         BusEvent.getNameOwnerReply owner]
  | autoUnexpected (code : Nat) (h : code ≠ 1 ∧ code ≠ 2) :
      CompleteStartup true
        [BusEvent.connectionGet true, BusEvent.startServiceReply (some code)]
  | autoError (owner : Option String) :
      CompleteStartup true
        [BusEvent.connectionGet true, BusEvent.startServiceReply Option.none,
         BusEvent.getNameOwnerReply owner]

end GDBus

namespace GApp

/-- `application_path_from_appid`, gapplicationimpl-dbus.c lines 132-145:
`g_strconcat ("/", appid)` followed by the in-place loop replacing every
`.` with `/`.  C strings are modelled as `List Char`. -/
def application_path_from_appid (appid : List Char) : List Char :=
  (('/' :: appid).map (fun ch => if ch = '.' then '/' else ch))

/-- The two `GApplicationFlags` bits read by this file:
`G_APPLICATION_IS_LAUNCHER` and `G_APPLICATION_IS_SERVICE`. -/
structure GApplicationFlags where
  is_launcher : Bool
  is_service : Bool
deriving DecidableEq, Repr

/-- `struct _GApplicationImpl`, gapplicationimpl-dbus.c lines 37-44:
`session_bus` by whether it is non-NULL, `object_id` as returned by
`g_dbus_connection_register_object` (0 = not published). -/
structure GApplicationImpl where
  session_bus : Bool
  bus_name : List Char
  object_path : List Char
  object_id : Nat
deriving DecidableEq, Repr

/-- Outcome of the synchronous `RequestName` call (lines 226-235):
either the call itself failed, or it returned the `"(u)"` reply code. -/
inductive RequestNameOutcome
  | error
  | reply (rval : Nat)
deriving DecidableEq, Repr

/-- The external collaborators consulted by `g_application_impl_register`:
whether `g_bus_get_sync` succeeds, the object id returned by
`g_dbus_connection_register_object` (0 on failure), and the `RequestName`
outcome. -/
structure RegisterEnv where
  bus_get_ok : Bool
  register_object_id : Nat
  request_name : RequestNameOutcome
deriving DecidableEq, Repr

/-- The error paths of `g_application_impl_register`. -/
inductive RegisterError
  | busGetFailed
  | registerObjectFailed
  | requestNameCallFailed
  | unableToAcquireName
deriving DecidableEq, Repr

/-- Result of `g_application_impl_register`: either an impl together with
the `*is_remote` out-parameter, or an error. -/
inductive RegisterResult
  | ok (impl : GApplicationImpl) (is_remote : Bool)
  | err (e : RegisterError)
deriving DecidableEq, Repr

/-- `g_application_impl_register`, gapplicationimpl-dbus.c lines 168-275:
bus failure returns the error; `IS_LAUNCHER` skips publication and
returns remote; a failed publication returns the error; a failed
`RequestName` call unregisters and returns the error; then
`*is_remote = (rval == 3)` — reply 3 unregisters the object and, when
`IS_SERVICE` was requested, fails with "Unable to acquire bus name";
every other reply value (there is no branch for it) falls through to
`return impl` with `is_remote = false` and the object still
published. -/
def g_application_impl_register (appid : List Char)
    (flags : GApplicationFlags) (env : RegisterEnv) : RegisterResult :=
  if env.bus_get_ok = false then RegisterResult.err RegisterError.busGetFailed
  else
    if flags.is_launcher then
      RegisterResult.ok
        { session_bus := true, bus_name := appid
          object_path := application_path_from_appid appid, object_id := 0 } true
    else if env.register_object_id = 0 then
      RegisterResult.err RegisterError.registerObjectFailed
    else
      match env.request_name with
      | RequestNameOutcome.error =>
          RegisterResult.err RegisterError.requestNameCallFailed
      | RequestNameOutcome.reply rval =>
          if rval = 3 then
            if flags.is_service then
              RegisterResult.err RegisterError.unableToAcquireName
            else
              RegisterResult.ok
                { session_bus := true, bus_name := appid
                  object_path := application_path_from_appid appid
                  object_id := 0 } true
          else
            RegisterResult.ok
              { session_bus := true, bus_name := appid
                object_path := application_path_from_appid appid
                object_id := env.register_object_id } false

/-- `GDBusCommandLine`, gapplicationimpl-dbus.c lines 435-443: the
primary-side channel.  `exit_status` lives in the
`GApplicationCommandLine` parent (initially 0); `invocation_held` models
the reference on the inbound invocation taken at line 525 and released
at line 489. -/
structure GDBusCommandLine where
  exit_status : Int
  invocation_held : Bool
deriving DecidableEq, Repr

/-- Bus-visible actions of the primary-side channel: the fire-and-forget
`Print`/`PrintError` calls to the peer, the `"(i)"` reply returned on the
inbound invocation, and the release of the invocation reference. -/
inductive ChannelAction
  | callPrint (msg : String)
  | callPrintError (msg : String)
  | replyReturn (status : Int)
  | releaseInvocation
deriving DecidableEq, Repr

/-- `g_dbus_command_line_new`, lines 510-528: fresh channel holding the
invocation, exit status 0 (set by `g_object_new` defaults). -/
def g_dbus_command_line_new : GDBusCommandLine :=
  { exit_status := 0, invocation_held := true }

/-- `g_dbus_command_line_print_literal`, lines 450-462: one asynchronous
`Print` call to the peer; no reply is produced or awaited. -/
def g_dbus_command_line_print_literal (msg : String) : List ChannelAction :=
  [ChannelAction.callPrint msg]

/-- `g_dbus_command_line_printerr_literal`, lines 464-476. -/
def g_dbus_command_line_printerr_literal (msg : String) : List ChannelAction :=
  [ChannelAction.callPrintError msg]

/-- `g_application_command_line_set_exit_status` as used at line 122:
records the handler's status on the channel. -/
def g_application_command_line_set_exit_status (c : GDBusCommandLine)
    (s : Int) : GDBusCommandLine :=
  { c with exit_status := s }

/-- `g_dbus_command_line_finalize`, lines 478-493: read the current exit
status, return the `"(i)"` reply on the held invocation, release the
invocation. -/
def g_dbus_command_line_finalize (c : GDBusCommandLine) :
    GDBusCommandLine × List ChannelAction :=
  ({ c with invocation_held := false },
   [ChannelAction.replyReturn c.exit_status, ChannelAction.releaseInvocation])

/-- What the application's `command-line` signal handler may do with the
channel while the `CommandLine` dispatch is running. -/
inductive CmdlineOp
  | print (msg : String)
  | printError (msg : String)
  | setExitStatus (s : Int)
deriving DecidableEq, Repr

/-- Apply one handler operation to the channel, yielding the bus actions
it emits. -/
def cmdline_apply (c : GDBusCommandLine) (op : CmdlineOp) :
    GDBusCommandLine × List ChannelAction :=
  match op with
  | CmdlineOp.print m => (c, g_dbus_command_line_print_literal m)
  | CmdlineOp.printError m => (c, g_dbus_command_line_printerr_literal m)
  | CmdlineOp.setExitStatus s =>
      (g_application_command_line_set_exit_status c s, [])

/-- The channel state and emitted actions over a handler run. -/
def cmdline_emit_trace : GDBusCommandLine → List CmdlineOp →
    GDBusCommandLine × List ChannelAction
  | c, [] => (c, [])
  | c, op :: rest =>
      ((cmdline_emit_trace (cmdline_apply c op).1 rest).1,
       (cmdline_apply c op).2 ++ (cmdline_emit_trace (cmdline_apply c op).1 rest).2)

/-- The `CommandLine` branch of `g_application_impl_method_call`,
gapplicationimpl-dbus.c lines 112-126: create the channel, run the
handler (`ops`, returning `status`), record `status` as the exit status,
drop the last reference — which runs `g_dbus_command_line_finalize`.
The result is the full sequence of bus actions of the channel's
lifetime. -/
def g_application_impl_method_call_CommandLine (ops : List CmdlineOp)
    (status : Int) : List ChannelAction :=
  (cmdline_emit_trace g_dbus_command_line_new ops).2 ++
    (g_dbus_command_line_finalize
      (g_application_command_line_set_exit_status
        (cmdline_emit_trace g_dbus_command_line_new ops).1 status)).2

/-- Whether a channel action is a reply on the inbound invocation. -/
def is_reply : ChannelAction → Bool
  | ChannelAction.replyReturn _ => true
  | _ => false

/-- `CommandLineData`, gapplicationimpl-dbus.c lines 345-349.  The C
variable is declared on the stack without an initializer, so the model
takes the junk initial `status` as a parameter. -/
structure CommandLineData where
  status : Int
deriving DecidableEq, Repr

/-- Outcome of the asynchronous `CommandLine` bus call as observed by
`g_application_impl_cmdline_done`: a `"(i)"` reply or a `GError`
message. -/
inductive CmdlineCallReply
  | ok (status : Int)
  | error (message : String)
deriving DecidableEq, Repr

/-- `g_application_impl_cmdline_done`, lines 351-377: on a reply, extract
the `i` into `data->status`; on error, `g_printerr ("%s\n", message)` and
set `data->status = 1`; then quit the loop.  The second component is the
text written to stderr. -/
def g_application_impl_cmdline_done (data : CommandLineData)
    (reply : CmdlineCallReply) : CommandLineData × List String :=
  match reply with
  | CmdlineCallReply.ok s => ({ data with status := s }, [])
  | CmdlineCallReply.error m => ({ data with status := 1 }, [m ++ "\n"])

/-- `g_application_impl_command_line`, lines 379-421: export the
callback object, issue the `CommandLine` call, run the private loop until
`g_application_impl_cmdline_done` fires, and return `data.status`.
Returns the status and the stderr output. -/
def g_application_impl_command_line (uninit_status : Int)
    (reply : CmdlineCallReply) : Int × List String :=
  (((g_application_impl_cmdline_done { status := uninit_status } reply)).1.status,
   ((g_application_impl_cmdline_done { status := uninit_status } reply)).2)

end GApp

/-! ## Properties of the watcher state machine -/

namespace GDBus

theorem last_delivered_append_one (ds : List CallType) (k : CallType) :
    last_delivered (ds ++ [k]) = some k := by
  induction ds with
  | nil => rfl
  | cons a rest ih =>
    cases rest with
    | nil => rfl
    | cons b rest2 => simpa [last_delivered] using ih

theorem alternates_append_one (ds : List CallType) (k : CallType)
    (h : alternates ds = true) (hne : last_delivered ds ≠ some k) :
    alternates (ds ++ [k]) = true := by
  induction ds with
  | nil => rfl
  | cons a rest ih =>
    cases rest with
    | nil =>
      have hak : a ≠ k := by simpa [last_delivered] using hne
      simp [alternates, hak]
    | cons b rest2 =>
      have h' : a ≠ b ∧ alternates (b :: rest2) = true := by
        simpa [alternates] using h
      have hne' : last_delivered (b :: rest2) ≠ some k := by
        simpa [last_delivered] using hne
      have := ih h'.2 hne'
      simpa [alternates, h'.1] using this

/-- `call_appeared_handler` always leaves `previous_call = APPEARED`
and changes no other field. -/
theorem call_appeared_handler_fst (c : Client) :
    (call_appeared_handler c).1 = { c with previous_call := PreviousCall.appeared } := by
  unfold call_appeared_handler
  split
  · next hp => cases c; simp_all
  · split <;> rfl

/-- The callbacks dispatched by `call_appeared_handler`. -/
theorem call_appeared_handler_snd (c : Client) :
    (call_appeared_handler c).2 =
      if c.previous_call ≠ PreviousCall.appeared ∧ c.cancelled = false ∧
         c.has_appeared_handler = true
      then [CallType.nameAppeared] else [] := by
  unfold call_appeared_handler
  split
  · next hp => simp [hp]
  · next hp => split <;> simp_all

/-- `call_vanished_handler` always leaves `previous_call = VANISHED`
and changes no other field. -/
theorem call_vanished_handler_fst (c : Client) (b : Bool) :
    (call_vanished_handler c b).1 = { c with previous_call := PreviousCall.vanished } := by
  unfold call_vanished_handler
  split
  · next hp => cases c; simp_all
  · split <;> rfl

/-- The callbacks dispatched by `call_vanished_handler`. -/
theorem call_vanished_handler_snd (c : Client) (b : Bool) :
    (call_vanished_handler c b).2 =
      if c.previous_call ≠ PreviousCall.vanished ∧
         (c.cancelled = false ∨ b = true) ∧ c.has_vanished_handler = true
      then [CallType.nameVanished] else [] := by
  unfold call_vanished_handler
  split
  · next hp => simp [hp]
  · next hp => split <;> simp_all

theorem call_appeared_handler_inv (c : Client) (ds : List CallType)
    (hA : c.has_appeared_handler = true)
    (h : DeliveryInv c.cancelled c.previous_call ds) :
    DeliveryInv (call_appeared_handler c).1.cancelled
      (call_appeared_handler c).1.previous_call
      (ds ++ (call_appeared_handler c).2) := by
  rw [call_appeared_handler_fst, call_appeared_handler_snd]
  by_cases hp : c.previous_call = PreviousCall.appeared
  · simp only [hp, ne_eq, not_true_eq_false, false_and, if_false, List.append_nil]
    rw [hp] at h
    exact h
  · by_cases hc : c.cancelled = false
    · simp only [ne_eq, hp, not_false_eq_true, hc, hA, and_self, if_true, true_and]
      refine ⟨alternates_append_one ds _ h.1 ?_, ?_⟩
      · rw [h.2 hc]
        cases hcp : c.previous_call <;> simp_all [prev_as_call]
      · intro _
        simp [last_delivered_append_one, prev_as_call]
    · have hc' : c.cancelled = true := by
        cases hcc : c.cancelled
        · exact absurd hcc hc
        · rfl
      simp [hc']
      exact ⟨h.1, by simp⟩

theorem call_vanished_handler_inv (c : Client) (ds : List CallType)
    (hV : c.has_vanished_handler = true)
    (h : DeliveryInv c.cancelled c.previous_call ds) :
    DeliveryInv (call_vanished_handler c false).1.cancelled
      (call_vanished_handler c false).1.previous_call
      (ds ++ (call_vanished_handler c false).2) := by
  rw [call_vanished_handler_fst, call_vanished_handler_snd]
  by_cases hp : c.previous_call = PreviousCall.vanished
  · simp only [hp, ne_eq, not_true_eq_false, false_and, if_false, List.append_nil]
    rw [hp] at h
    exact h
  · by_cases hc : c.cancelled = false
    · simp only [ne_eq, hp, not_false_eq_true, hc, hV, true_or, and_self, if_true, true_and]
      refine ⟨alternates_append_one ds _ h.1 ?_, ?_⟩
      · rw [h.2 hc]
        cases hcp : c.previous_call <;> simp_all [prev_as_call]
      · intro _
        simp [last_delivered_append_one, prev_as_call]
    · have hc' : c.cancelled = true := by
        cases hcc : c.cancelled
        · exact absurd hcc hc
        · rfl
      simp [hc']
      exact ⟨h.1, by simp⟩

theorem on_name_owner_changed_inv (c : Client) (s p i nm o n : String)
    (ds : List CallType)
    (hA : c.has_appeared_handler = true) (hV : c.has_vanished_handler = true)
    (h : DeliveryInv c.cancelled c.previous_call ds) :
    DeliveryInv (on_name_owner_changed c s p i nm o n).1.cancelled
      (on_name_owner_changed c s p i nm o n).1.previous_call
      (ds ++ (on_name_owner_changed c s p i nm o n).2) := by
  unfold on_name_owner_changed
  by_cases hinit : c.initialized = false
  · rw [if_pos hinit]
    simpa using h
  · rw [if_neg hinit]
    by_cases hdaemon : p ≠ "/org/freedesktop/DBus" ∨ i ≠ "org.freedesktop.DBus" ∨
        s ≠ "org.freedesktop.DBus"
    · rw [if_pos hdaemon]
      simpa using h
    · rw [if_neg hdaemon]
      by_cases hname : nm ≠ c.name
      · rw [if_pos hname]
        simpa using h
      · rw [if_neg hname]
        simp only []
        by_cases hold : o ≠ "" ∧ c.name_owner ≠ Option.none
        · rw [if_pos hold]
          have h1 := call_vanished_handler_inv
            { c with name_owner := Option.none } ds hV h
          by_cases hnew : n ≠ ""
          · rw [if_pos hnew]
            have hA1 : (call_vanished_handler { c with name_owner := Option.none }
                false).1.has_appeared_handler = true := by
              simpa [call_vanished_handler_fst] using hA
            have h2 := call_appeared_handler_inv
              { (call_vanished_handler { c with name_owner := Option.none } false).1 with
                name_owner := some n }
              (ds ++ (call_vanished_handler { c with name_owner := Option.none } false).2)
              hA1 h1
            simpa [List.append_assoc] using h2
          · rw [if_neg hnew]
            simpa using h1
        · rw [if_neg hold]
          by_cases hnew : n ≠ ""
          · rw [if_pos hnew]
            have h2 := call_appeared_handler_inv { c with name_owner := some n } ds hA h
            simpa using h2
          · rw [if_neg hnew]
            simpa using h

/-- Every transition preserves the delivery invariant for a watcher with
both handlers registered. -/
theorem step_inv (c : Client) (e : BusEvent) (ds : List CallType)
    (hA : c.has_appeared_handler = true) (hV : c.has_vanished_handler = true)
    (h : DeliveryInv c.cancelled c.previous_call ds) :
    DeliveryInv (step c e).1.cancelled (step c e).1.previous_call
      (ds ++ (step c e).2) := by
  cases e with
  | connectionGet ok =>
      cases ok with
      | true => simpa [step, connection_get_cb] using h
      | false =>
          simpa [step, connection_get_cb] using call_vanished_handler_inv c ds hV h
  | startServiceReply result =>
      cases result with
      | none => simpa [step, start_service_by_name_cb] using h
      | some code =>
          by_cases h1 : code = 1
          · simpa [step, start_service_by_name_cb, h1] using h
          · by_cases h2 : code = 2
            · simpa [step, start_service_by_name_cb, h1, h2] using h
            · have hv := call_vanished_handler_inv c ds hV h
              simpa [step, start_service_by_name_cb, h1, h2] using hv
  | getNameOwnerReply owner =>
      cases owner with
      | none =>
          have hv := call_vanished_handler_inv c ds hV h
          simpa [step, get_name_owner_cb] using hv
      | some ow =>
          have ha := call_appeared_handler_inv { c with name_owner := some ow } ds hA h
          simpa [step, get_name_owner_cb] using ha
  | nameOwnerChanged s p i nm o n =>
      exact on_name_owner_changed_inv c s p i nm o n ds hA hV h
  | connectionClosed =>
      have hv := call_vanished_handler_inv { c with connected := false } ds hV h
      simpa [step, on_connection_disconnected] using hv
  | unwatch =>
      refine ⟨by simpa [step] using h.1, ?_⟩
      intro hf
      simp [step] at hf

/-- Transitions never change which handlers are registered. -/
theorem step_fields (c : Client) (e : BusEvent) :
    (step c e).1.has_appeared_handler = c.has_appeared_handler ∧
    (step c e).1.has_vanished_handler = c.has_vanished_handler := by
  cases e with
  | connectionGet ok =>
      cases ok <;> simp [step, connection_get_cb, call_vanished_handler_fst]
  | startServiceReply result =>
      cases result with
      | none => simp [step, start_service_by_name_cb]
      | some code =>
          by_cases h1 : code = 1
          · simp [step, start_service_by_name_cb, h1]
          · by_cases h2 : code = 2 <;>
              simp [step, start_service_by_name_cb, h1, h2, call_vanished_handler_fst]
  | getNameOwnerReply owner =>
      cases owner <;>
        simp [step, get_name_owner_cb, call_vanished_handler_fst,
          call_appeared_handler_fst]
  | nameOwnerChanged s p i nm o n =>
      simp only [step]
      unfold on_name_owner_changed
      by_cases hinit : c.initialized = false
      · rw [if_pos hinit]; exact ⟨rfl, rfl⟩
      · rw [if_neg hinit]
        by_cases hdaemon : p ≠ "/org/freedesktop/DBus" ∨ i ≠ "org.freedesktop.DBus" ∨
            s ≠ "org.freedesktop.DBus"
        · rw [if_pos hdaemon]; exact ⟨rfl, rfl⟩
        · rw [if_neg hdaemon]
          by_cases hname : nm ≠ c.name
          · rw [if_pos hname]; exact ⟨rfl, rfl⟩
          · rw [if_neg hname]
            by_cases hold : o ≠ "" ∧ c.name_owner ≠ Option.none <;>
              by_cases hnew : n ≠ "" <;>
                simp [hold, hnew, call_vanished_handler_fst, call_appeared_handler_fst]
  | connectionClosed =>
      simp [step, on_connection_disconnected, call_vanished_handler_fst]
  | unwatch => exact ⟨rfl, rfl⟩

/-- The delivery invariant holds after any event sequence. -/
theorem run_inv (es : List BusEvent) : ∀ (c : Client) (ds : List CallType),
    c.has_appeared_handler = true → c.has_vanished_handler = true →
    DeliveryInv c.cancelled c.previous_call ds →
    DeliveryInv (run c es).1.cancelled (run c es).1.previous_call
      (ds ++ (run c es).2) := by
  induction es with
  | nil =>
      intro c ds hA hV h
      simpa [run] using h
  | cons e rest ih =>
      intro c ds hA hV h
      have hs := step_inv c e ds hA hV h
      have hf := step_fields c e
      have hrec := ih (step c e).1 (ds ++ (step c e).2)
        (hf.1.trans hA) (hf.2.trans hV) hs
      simpa [run, List.append_assoc] using hrec

/-! ## Claims about the watcher state machine -/

/-- C1 counterexample: the claim quantifies over every watcher, but a
watcher registered with a NULL vanished handler (permitted by
`g_bus_watch_name`) can receive two consecutive Appeared callbacks: the
owner appears, vanishes (the `previous_call` flip happens but nothing is
dispatched, there being no vanished handler), and appears again.  The
delivered sequence is Appeared, Appeared — not strictly alternating. -/
theorem watch_alternation_cex :
    (run (initial_client 1 "n" false true false)
      [BusEvent.connectionGet true,
       BusEvent.getNameOwnerReply (some ":1.5"),
       BusEvent.nameOwnerChanged "org.freedesktop.DBus" "/org/freedesktop/DBus"
         "org.freedesktop.DBus" "n" ":1.5" "",
       BusEvent.nameOwnerChanged "org.freedesktop.DBus" "/org/freedesktop/DBus"
         "org.freedesktop.DBus" "n" "" ":1.6"]).2 =
      [CallType.nameAppeared, CallType.nameAppeared] ∧
    alternates [CallType.nameAppeared, CallType.nameAppeared] = false := by
  exact ⟨by decide, by decide⟩

/-- C1 (amended): for every watcher registered with both a non-NULL
appeared handler and a non-NULL vanished handler, the sequence of
callbacks delivered to it strictly alternates — no two consecutive
delivered callbacks are of the same kind — across every interleaving of
bus acquisition, GetNameOwner replies, StartServiceByName replies,
NameOwnerChanged signals, connection closure and cancellation. -/
theorem watch_alternation (i : Nat) (nm : String) (auto : Bool)
    (es : List BusEvent) :
    alternates (run (initial_client i nm auto true true) es).2 = true := by
  have h := run_inv es (initial_client i nm auto true true) [] rfl rfl
    ⟨rfl, fun _ => rfl⟩
  simpa using h.1

/-- C2 counterexample: `g_bus_watch_name` on a fresh registry returns
the nonzero id 1, yet the execution in which `g_bus_unwatch_name` runs
before the initial `GetNameOwner` reply arrives delivers no callback at
all before the watcher quiesces: the cancellation makes
`call_vanished_handler (client, FALSE)` suppress the delivery (both
handlers are registered here). -/
theorem watch_at_least_one_cex :
    (g_bus_watch_name (fun _ => true) registry0 "org.example.App" false true true).2
      = 1 ∧
    (run (initial_client 1 "org.example.App" false true true)
      [BusEvent.connectionGet true, BusEvent.unwatch,
       BusEvent.getNameOwnerReply Option.none]).2 = [] := by
  exact ⟨by decide, by decide⟩

/-- C2 (amended): every complete startup execution of a watcher with
both handlers registered — one in which unwatch does not intervene —
delivers at least one callback (Appeared or Vanished). -/
theorem watch_at_least_one (i : Nat) (nm : String) (auto : Bool)
    (es : List BusEvent) (h : CompleteStartup auto es) :
    (run (initial_client i nm auto true true) es).2 ≠ [] := by
  cases h with
  | busFail a =>
      simp [run, step, connection_get_cb, call_vanished_handler, initial_client]
  | noAuto owner =>
      cases owner <;>
        simp [run, step, connection_get_cb, get_name_owner_cb,
          call_appeared_handler, call_vanished_handler, initial_client]
  | autoStarted code owner hcode =>
      have h12 : (code = 1) ∨ (code = 1 → False) ∧ code = 2 := by
        rcases hcode with h1 | h2
        · exact Or.inl h1
        · by_cases h1 : code = 1
          · exact Or.inl h1
          · exact Or.inr ⟨h1, h2⟩
      rcases h12 with h1 | ⟨hne, h2⟩ <;>
        cases owner <;>
          simp_all [run, step, connection_get_cb, start_service_by_name_cb,
            get_name_owner_cb, call_appeared_handler, call_vanished_handler,
            initial_client]
  | autoUnexpected code hcode =>
      simp [run, step, connection_get_cb, start_service_by_name_cb,
        call_vanished_handler, initial_client, hcode.1, hcode.2]
  | autoError owner =>
      cases owner <;>
        simp [run, step, connection_get_cb, start_service_by_name_cb,
          get_name_owner_cb, call_appeared_handler, call_vanished_handler,
          initial_client]

/-- Witness for `watch_at_least_one`: the failed-bus-acquisition startup
of a concrete watcher delivers a callback. -/
theorem watch_at_least_one_witness :
    (run (initial_client 1 "org.example.App" false true true)
      [BusEvent.connectionGet false]).2 ≠ [] :=
  watch_at_least_one 1 "org.example.App" false _ (CompleteStartup.busFail false)

/-- C3 counterexample: a watcher reaches the Appeared state, is
cancelled by unwatch, and then its connection closes.  The claim says a
Vanished is still delivered (cancellation ignored); in this code
`on_connection_disconnected` passes FALSE for `ignore_cancelled`
(line 264), so the complete delivered sequence is just the initial
Appeared — no Vanished is ever delivered. -/
theorem disconnect_cancelled_cex :
    (run (initial_client 1 "a" false true true)
      [BusEvent.connectionGet true, BusEvent.getNameOwnerReply (some ":1.5"),
       BusEvent.unwatch, BusEvent.connectionClosed]).2 =
      [CallType.nameAppeared] := by
  decide

/-- C3 (amended): the connection-closure path requests vanished delivery
with `ignore_cancelled = FALSE`, so cancellation is honoured: closure
delivers exactly one Vanished precisely when the watcher is not already
in Vanished state, is not cancelled, and has a vanished handler; a
cancelled watcher receives nothing (its `previous_call` still becomes
Vanished). -/
theorem disconnect_vanished (c : Client) :
    on_connection_disconnected c =
      (if c.previous_call = PreviousCall.vanished then { c with connected := false }
       else { c with connected := false, previous_call := PreviousCall.vanished },
       if c.previous_call ≠ PreviousCall.vanished ∧ c.cancelled = false ∧
          c.has_vanished_handler = true
       then [CallType.nameVanished] else []) := by
  obtain ⟨cid, cname, cauto, cowner, chA, chV, cconn, cprev, ccanc, cinit⟩ := c
  unfold on_connection_disconnected call_vanished_handler
  cases cprev <;> cases ccanc <;> cases chV <;> simp_all

/-- C9: for an id that is registered (and nonzero, as every id handed
out by watch is), `g_bus_unwatch_name` removes the mapping — the id can
no longer be looked up — and sets the client's `cancelled` flag; a
second unwatch of the same id, or an unwatch of any unregistered id,
warns and leaves the registry unchanged. -/
theorem unwatch_spec (st : Registry) (i : Nat) (c : Client)
    (hi : i ≠ 0) (h : st.map_id_to_client i = some c) :
    (g_bus_unwatch_name st i).2 =
      UnwatchOutcome.removed { c with cancelled := true } ∧
    (g_bus_unwatch_name st i).1.map_id_to_client i = Option.none ∧
    (g_bus_unwatch_name (g_bus_unwatch_name st i).1 i).2 =
      UnwatchOutcome.warned ∧
    (g_bus_unwatch_name (g_bus_unwatch_name st i).1 i).1 =
      (g_bus_unwatch_name st i).1 ∧
    ∀ (st2 : Registry) (j : Nat), st2.map_id_to_client j = Option.none →
      (g_bus_unwatch_name st2 j).2 = UnwatchOutcome.warned ∧
      (g_bus_unwatch_name st2 j).1 = st2 := by
  have hstep : g_bus_unwatch_name st i =
      ({ st with map_id_to_client := fun j =>
           if j = i then Option.none else st.map_id_to_client j },
       UnwatchOutcome.removed { c with cancelled := true }) := by
    unfold g_bus_unwatch_name
    rw [if_neg hi, h]
  refine ⟨by rw [hstep], ?_, ?_, ?_, ?_⟩
  · rw [hstep]
    simp
  · rw [hstep]
    unfold g_bus_unwatch_name
    rw [if_neg hi]
    simp
  · rw [hstep]
    unfold g_bus_unwatch_name
    rw [if_neg hi]
    simp
  · intro st2 j hj
    unfold g_bus_unwatch_name
    by_cases hj0 : j = 0
    · rw [if_pos hj0]
      exact ⟨rfl, rfl⟩
    · rw [if_neg hj0, hj]
      exact ⟨rfl, rfl⟩

/-- Witness for `unwatch_spec`: unwatching the watcher just created by
`g_bus_watch_name` on the fresh registry. -/
theorem unwatch_spec_witness :
    ((g_bus_unwatch_name
        (g_bus_watch_name (fun _ => true) registry0 "org.example.App"
          false true true).1 1).2 =
      UnwatchOutcome.removed
        { initial_client 1 "org.example.App" false true true with
          cancelled := true } ∧
    (g_bus_unwatch_name
        (g_bus_watch_name (fun _ => true) registry0 "org.example.App"
          false true true).1 1).1.map_id_to_client 1 = Option.none ∧
    (g_bus_unwatch_name
        (g_bus_unwatch_name
          (g_bus_watch_name (fun _ => true) registry0 "org.example.App"
            false true true).1 1).1 1).2 = UnwatchOutcome.warned ∧
    (g_bus_unwatch_name
        (g_bus_unwatch_name
          (g_bus_watch_name (fun _ => true) registry0 "org.example.App"
            false true true).1 1).1 1).1 =
      (g_bus_unwatch_name
        (g_bus_watch_name (fun _ => true) registry0 "org.example.App"
          false true true).1 1).1 ∧
    ∀ (st2 : Registry) (j : Nat), st2.map_id_to_client j = Option.none →
      (g_bus_unwatch_name st2 j).2 = UnwatchOutcome.warned ∧
      (g_bus_unwatch_name st2 j).1 = st2) :=
  unwatch_spec
    (g_bus_watch_name (fun _ => true) registry0 "org.example.App"
      false true true).1 1
    (initial_client 1 "org.example.App" false true true)
    (by decide) rfl

/-- C10: if the watched name is not a valid bus name
(`g_dbus_is_name` rejects it), both `g_bus_watch_name` and
`g_bus_watch_name_on_connection` return the reserved id 0 and leave the
registry untouched — no watcher exists, so no callback can ever be
delivered for the call. -/
theorem watch_invalid_name (g_dbus_is_name : String → Bool) (st : Registry)
    (nm : String) (auto hasA hasV : Bool) (connection_valid : Bool)
    (h : g_dbus_is_name nm = false) :
    g_bus_watch_name g_dbus_is_name st nm auto hasA hasV = (st, 0) ∧
    g_bus_watch_name_on_connection g_dbus_is_name connection_valid st nm
      auto hasA hasV = (st, 0) := by
  constructor
  · unfold g_bus_watch_name
    rw [if_pos h]
  · unfold g_bus_watch_name_on_connection
    by_cases hc : connection_valid = false
    · rw [if_pos hc]
    · rw [if_neg hc, if_pos h]

/-- Witness for `watch_invalid_name` at a concrete rejecting validity
predicate and name. -/
theorem watch_invalid_name_witness :
    g_bus_watch_name (fun s => !(s == "")) registry0 "" false true true
      = (registry0, 0) ∧
    g_bus_watch_name_on_connection (fun s => !(s == "")) true registry0 ""
      false true true = (registry0, 0) :=
  watch_invalid_name (fun s => !(s == "")) registry0 "" false true true true
    (by decide)

end GDBus

/-! ## Claims about the application registration and command-line layer -/

namespace GApp

/-- C6: the application path derivation prepends `/` to the id and
replaces every `.` by `/`, and nothing else; in particular
`path("a.b.c") = "/a/b/c"`.  (The source concatenates first and then
replaces over the whole buffer; since `/` is left unchanged by the
replacement the two readings agree.) -/
theorem application_path_spec (appid : List Char) :
    application_path_from_appid appid =
      '/' :: appid.map (fun ch => if ch = '.' then '/' else ch) ∧
    application_path_from_appid "a.b.c".toList = "/a/b/c".toList := by
  constructor
  · simp [application_path_from_appid]
  · decide

/-- C4 counterexample: with the bus up, publication succeeded and
`RequestName` answering the unexpected reply code 4
(`DBUS_REQUEST_NAME_REPLY_ALREADY_OWNER`), `register` does not return a
bus error: it returns a normal registration with `is_remote = false` and
the dispatcher still published (`object_id = 7`).  There is no branch
for reply codes other than 3 in the source (`*is_remote = (rval == 3)`,
line 256, then `return impl`). -/
theorem register_unexpected_reply_cex :
    g_application_impl_register "a.b".toList
      { is_launcher := false, is_service := false }
      { bus_get_ok := true, register_object_id := 7,
        request_name := RequestNameOutcome.reply 4 } =
      RegisterResult.ok
        { session_bus := true, bus_name := "a.b".toList,
          object_path := "/a/b".toList, object_id := 7 } false := by
  decide

/-- C4 (amended): when `RequestName` returns any reply code other than
3 — the expected 1 but also every unexpected code — `register` returns a
primary registration: `is_remote = false` and the dispatcher left
published.  Unexpected reply codes are not detected and no error is
returned. -/
theorem register_non_exists_reply (appid : List Char)
    (flags : GApplicationFlags) (env : RegisterEnv) (rval : Nat)
    (hbus : env.bus_get_ok = true) (hl : flags.is_launcher = false)
    (hobj : env.register_object_id ≠ 0)
    (hreq : env.request_name = RequestNameOutcome.reply rval)
    (h3 : rval ≠ 3) :
    g_application_impl_register appid flags env =
      RegisterResult.ok
        { session_bus := true, bus_name := appid
          object_path := application_path_from_appid appid
          object_id := env.register_object_id } false := by
  unfold g_application_impl_register
  rw [hreq]
  simp [hbus, hl, hobj, h3]

/-- Witness for `register_non_exists_reply` at reply code 1 (primary
owner). -/
theorem register_non_exists_reply_witness :
    g_application_impl_register "a.b".toList
      { is_launcher := false, is_service := true }
      { bus_get_ok := true, register_object_id := 9,
        request_name := RequestNameOutcome.reply 1 } =
      RegisterResult.ok
        { session_bus := true, bus_name := "a.b".toList,
          object_path := "/a/b".toList, object_id := 9 } false := by
  have h := register_non_exists_reply "a.b".toList
    { is_launcher := false, is_service := true }
    { bus_get_ok := true, register_object_id := 9,
      request_name := RequestNameOutcome.reply 1 } 1 rfl rfl (by decide) rfl
    (by decide)
  exact h.trans (by decide)

/-- C5: when `RequestName` returns reply code 3 (name exists, not
queued), the dispatcher is unpublished (`object_id = 0`) and
`is_remote` is set to true; if `IS_SERVICE` was also requested the call
instead fails with the "unable to acquire name" error and returns no
registration, otherwise it returns normally as a remote. -/
theorem register_name_exists (appid : List Char) (flags : GApplicationFlags)
    (env : RegisterEnv)
    (hbus : env.bus_get_ok = true) (hl : flags.is_launcher = false)
    (hobj : env.register_object_id ≠ 0)
    (hreq : env.request_name = RequestNameOutcome.reply 3) :
    g_application_impl_register appid flags env =
      (if flags.is_service then
        RegisterResult.err RegisterError.unableToAcquireName
       else
        RegisterResult.ok
          { session_bus := true, bus_name := appid
            object_path := application_path_from_appid appid
            object_id := 0 } true) := by
  unfold g_application_impl_register
  rw [hreq]
  simp [hbus, hl, hobj]

/-- Witness for `register_name_exists` without the `IS_SERVICE` flag:
the remote registration. -/
theorem register_name_exists_witness :
    g_application_impl_register "a.b".toList
      { is_launcher := false, is_service := false }
      { bus_get_ok := true, register_object_id := 7,
        request_name := RequestNameOutcome.reply 3 } =
      RegisterResult.ok
        { session_bus := true, bus_name := "a.b".toList,
          object_path := "/a/b".toList, object_id := 0 } true := by
  have h := register_name_exists "a.b".toList
    { is_launcher := false, is_service := false }
    { bus_get_ok := true, register_object_id := 7,
      request_name := RequestNameOutcome.reply 3 } rfl rfl (by decide) rfl
  exact h.trans (by decide)

theorem cmdline_emit_trace_no_reply (c : GDBusCommandLine)
    (ops : List CmdlineOp) :
    (cmdline_emit_trace c ops).2.filter is_reply = [] := by
  induction ops generalizing c with
  | nil => rfl
  | cons op rest ih =>
      cases op <;>
        simp [cmdline_emit_trace, cmdline_apply,
          g_dbus_command_line_print_literal,
          g_dbus_command_line_printerr_literal,
          g_application_command_line_set_exit_status, is_reply, ih]

/-- C7: over any handler run, the primary-side channel's action trace
contains exactly one reply; that reply is emitted by the destruction,
carries the channel's final exit status, and is immediately followed by
the release of the original invocation; no reply is emitted before
destruction, and afterwards the invocation is no longer held (so none
can follow). -/
theorem command_line_channel_reply_once (ops : List CmdlineOp)
    (status : Int) :
    (g_application_impl_method_call_CommandLine ops status).filter is_reply =
      [ChannelAction.replyReturn status] ∧
    g_application_impl_method_call_CommandLine ops status =
      (cmdline_emit_trace g_dbus_command_line_new ops).2 ++
        [ChannelAction.replyReturn status, ChannelAction.releaseInvocation] ∧
    (cmdline_emit_trace g_dbus_command_line_new ops).2.filter is_reply = [] ∧
    (g_dbus_command_line_finalize
        (g_application_command_line_set_exit_status
          (cmdline_emit_trace g_dbus_command_line_new ops).1
          status)).1.invocation_held = false := by
  refine ⟨?_, rfl, cmdline_emit_trace_no_reply _ _, rfl⟩
  simp [g_application_impl_method_call_CommandLine,
    g_dbus_command_line_finalize,
    g_application_command_line_set_exit_status, is_reply,
    cmdline_emit_trace_no_reply]

/-- C8: the remote command-line round trip returns the `(status: i32)`
carried by a successful reply, and on a call error writes the error
message (with a newline) to stderr and returns status 1 — independently
of the junk initial value of the stack-allocated status. -/
theorem remote_command_line_status (uninit : Int) (s : Int) (m : String) :
    g_application_impl_command_line uninit (CmdlineCallReply.ok s) =
      (s, []) ∧
    g_application_impl_command_line uninit (CmdlineCallReply.error m) =
      (1, [m ++ "\n"]) := by
  exact ⟨rfl, rfl⟩

end GApp
